import Mathlib

/-!
Verification of the auth-template repository: a shallow embedding of its
authorization evaluator, row-level policies, server session resolver,
profile storage procedures, passive sync trigger, audit recorder and the
OAuth callback reconciler, with theorems settling the specification
claims against these embeddings.

Conventions: SQL `NULL`-able columns and absent JSON keys are `Option`;
timestamps are `Nat` (the value of `NOW()` is passed in explicitly);
tables are lists of rows; an error raised by a storage procedure is the
`Except.error` case.
-/

namespace AuthTemplate

/-! ## Authorization evaluator (database/auth-policies.sql) -/

/-- The authentication context visible to SQL: `auth.uid()` (the caller's
verified user id, `NULL` when unauthenticated) and the `role` claim of
`auth.jwt()`. -/
structure AuthCtx where
  uid : Option String
  jwtRole : Option String
deriving DecidableEq, Repr

/-- The elevated-role test used throughout the policies:
`COALESCE(auth.jwt() ->> 'role', '') = 'service_role'`. -/
def isServiceRole (ctx : AuthCtx) : Bool :=
  ctx.jwtRole.getD "" == "service_role"

/-- `public.check_user_permission(resource_user_id, required_permission)`
from auth-policies.sql: returns FALSE when `auth.uid()` is NULL, TRUE when
`auth.uid() = resource_user_id`, TRUE when the caller carries the
`service_role` claim, FALSE otherwise. The `required_permission` argument
is declared (`DEFAULT 'read'`) but never read by the body. -/
def check_user_permission (ctx : AuthCtx) (resource_user_id : String)
    (required_permission : String) : Bool :=
  match ctx.uid with
  | none => false
  | some uid =>
    if uid = resource_user_id then true
    else if isServiceRole ctx then true
    else false

/-- SQL command classes the row-level policies distinguish. -/
inductive SqlCmd
  | select
  | insert
  | update
  | delete
deriving DecidableEq, Repr

/-- The combined (permissive, OR-ed) row-level policy decision for a row of
`public.profiles` owned by `owner`: policies `read_own_profile`,
`update_own_profile`, `insert_own_profile` (each `auth.uid() = user_id`;
a NULL `auth.uid()` compares as not-true) and
`service_role_full_access_profiles` (`FOR ALL`,
`COALESCE(auth.jwt() ->> 'role','') = 'service_role'`). -/
def profilesRlsAllows (ctx : AuthCtx) (cmd : SqlCmd) (owner : String) : Bool :=
  let ownRow : Bool := ctx.uid == some owner
  match cmd with
  | .select => ownRow || isServiceRole ctx
  | .insert => ownRow || isServiceRole ctx
  | .update => ownRow || isServiceRole ctx
  | .delete => isServiceRole ctx

/-! ## Profile rows and stored procedures (database/auth-schema.sql) -/

/-- A row of `public.profiles`: `user_id` primary key, nullable `email`,
`full_name`, `avatar_url`, and the two timestamp columns. -/
structure ProfileRow where
  user_id : String
  email : Option String
  full_name : Option String
  avatar_url : Option String
  created_at : Nat
  updated_at : Nat
deriving DecidableEq, Repr

/-- A row of `auth.users` as consumed here: `id`, nullable `email`, and the
`full_name` / `avatar_url` keys of `raw_user_meta_data` (absent key is
`none`). -/
structure AuthUserRow where
  id : String
  email : Option String
  metaFullName : Option String
  metaAvatarUrl : Option String
deriving DecidableEq, Repr

/-- `SELECT * FROM public.profiles WHERE user_id = uid`. -/
def lookupProfile (t : List ProfileRow) (uid : String) : Option ProfileRow :=
  t.find? (fun r => r.user_id == uid)

/-- Database errors a statement can raise. -/
inductive DbError
  | uniqueViolation
  | fkViolation
deriving DecidableEq, Repr

/-- `INSERT INTO public.profiles` under the `user_id` primary-key
constraint: raises a uniqueness violation when a row with that key already
exists. -/
def insertProfileRow (t : List ProfileRow) (r : ProfileRow) :
    Except DbError (List ProfileRow) :=
  if (lookupProfile t r.user_id).isSome then .error .uniqueViolation
  else .ok (t ++ [r])

/-- The `jsonb_build_object` result shape shared by the stored
procedures: `success`, `code`, `message` and an optional `profile`. -/
structure ProcResult where
  success : Bool
  code : String
  message : String
  profile : Option ProfileRow
deriving DecidableEq, Repr

def mkFound (p : ProfileRow) : ProcResult :=
  { success := true, code := "FOUND", message := "Profile found", profile := some p }

def mkCreated (p : ProfileRow) : ProcResult :=
  { success := true, code := "CREATED", message := "Profile created successfully",
    profile := some p }

def mkUserNotFound : ProcResult :=
  { success := false, code := "USER_NOT_FOUND", message := "User not found in auth.users",
    profile := none }

def mkUpdated (p : ProfileRow) : ProcResult :=
  { success := true, code := "UPDATED", message := "Profile updated successfully",
    profile := some p }

def mkNotFound : ProcResult :=
  { success := false, code := "NOT_FOUND", message := "User profile not found",
    profile := none }

/-- The insert phase of `get_or_create_profile`, entered when the initial
lookup found nothing: `INSERT INTO profiles ... SELECT ... FROM auth.users
WHERE au.id = user_uuid RETURNING *`. Inserting zero rows (no such auth
user) yields `USER_NOT_FOUND`; a row insert is subject to the primary-key
constraint and has no `ON CONFLICT` clause, so a concurrent duplicate
raises. -/
def gocInsertPhase (users : List AuthUserRow) (t : List ProfileRow)
    (user_uuid : String) (now : Nat) :
    Except DbError (ProcResult × List ProfileRow) :=
  match users.find? (fun u => u.id == user_uuid) with
  | none => .ok (mkUserNotFound, t)
  | some au =>
    let row : ProfileRow :=
      { user_id := user_uuid
        email := some (au.email.getD "")
        full_name := some (au.metaFullName.getD "")
        avatar_url := some (au.metaAvatarUrl.getD "")
        created_at := now
        updated_at := now }
    match insertProfileRow t row with
    | .error e => .error e
    | .ok t2 => .ok (mkCreated row, t2)

/-- The body of `get_or_create_profile` after its initial
`SELECT * INTO profile_record`, parameterised by what that select saw. -/
def gocAfterSelect (users : List AuthUserRow) (t : List ProfileRow)
    (user_uuid : String) (seen : Option ProfileRow) (now : Nat) :
    Except DbError (ProcResult × List ProfileRow) :=
  match seen with
  | some p => .ok (mkFound p, t)
  | none => gocInsertPhase users t user_uuid now

/-- `public.get_or_create_profile(user_uuid)` run serially: lookup first,
then the create-from-auth.users phase when absent. -/
def get_or_create_profile (users : List AuthUserRow) (t : List ProfileRow)
    (user_uuid : String) (now : Nat) :
    Except DbError (ProcResult × List ProfileRow) :=
  gocAfterSelect users t user_uuid (lookupProfile t user_uuid) now

/-- Two concurrent `get_or_create_profile` calls for the same subject,
interleaved so that both initial selects run against the initial table
before either insert: caller A then completes, then caller B completes
against A's table. Returns both results and the final table. -/
def get_or_create_race (users : List AuthUserRow) (t0 : List ProfileRow)
    (user_uuid : String) (now1 now2 : Nat) :
    Except DbError ProcResult × Except DbError ProcResult × List ProfileRow :=
  let seenA := lookupProfile t0 user_uuid
  let seenB := lookupProfile t0 user_uuid
  match gocAfterSelect users t0 user_uuid seenA now1 with
  | .error e =>
    match gocAfterSelect users t0 user_uuid seenB now2 with
    | .error e2 => (.error e, .error e2, t0)
    | .ok (rB, t1) => (.error e, .ok rB, t1)
  | .ok (rA, t1) =>
    match gocAfterSelect users t1 user_uuid seenB now2 with
    | .error e => (.ok rA, .error e, t1)
    | .ok (rB, t2) => (.ok rA, .ok rB, t2)

/-- The partial-update payload `profile_data JSONB` as read through
`profile_data ->> 'email'` etc.: an absent key and a JSON `null` both read
as SQL NULL, so each field is an `Option`. -/
structure UserUpdateData where
  email : Option String
  full_name : Option String
  avatar_url : Option String
deriving DecidableEq, Repr

/-- The `handle_updated_at` BEFORE UPDATE trigger on `public.profiles`:
`NEW.updated_at = TIMEZONE('utc', NOW())`. -/
def handle_updated_at (r : ProfileRow) (now : Nat) : ProfileRow :=
  { r with updated_at := now }

/-- The SET clause of `update_user_profile` applied to one row (each
column is `COALESCE(profile_data ->> field, old value)`), followed by the
`handle_updated_at` trigger that fires on the update. -/
def updateProfileRow (d : UserUpdateData) (p : ProfileRow) (now : Nat) : ProfileRow :=
  handle_updated_at
    { p with
      email := d.email.orElse (fun _ => p.email)
      full_name := d.full_name.orElse (fun _ => p.full_name)
      avatar_url := d.avatar_url.orElse (fun _ => p.avatar_url)
      updated_at := now }
    now

/-- `public.update_user_profile(user_uuid, profile_data)`: UPDATE the
matching row (merging with COALESCE, timestamping), `NOT_FOUND` when no
row matched, `UPDATED` with the new row otherwise. -/
def update_user_profile (t : List ProfileRow) (user_uuid : String)
    (d : UserUpdateData) (now : Nat) : ProcResult × List ProfileRow :=
  match lookupProfile t user_uuid with
  | none => (mkNotFound, t)
  | some p =>
    let p2 := updateProfileRow d p now
    (mkUpdated p2, t.map (fun r => if r.user_id == user_uuid then p2 else r))

/-! ## Passive sync trigger (database/auth-schema.sql) -/

/-- Trigger operations of `_trg_sync_profile_from_auth_users`. -/
inductive TgOp
  | insert
  | update
deriving DecidableEq, Repr

/-- The SET clause of the UPDATE branch of `sync_profile_from_auth_users`
applied to one profile row: `email = NEW.email` unconditionally,
`full_name = COALESCE(NEW.raw_user_meta_data ->> 'full_name',
profiles.full_name)` (likewise avatar), `updated_at = NOW()`. -/
def syncUpdateRow (newUser : AuthUserRow) (p : ProfileRow) (now : Nat) : ProfileRow :=
  { p with
    email := newUser.email
    full_name := newUser.metaFullName.orElse (fun _ => p.full_name)
    avatar_url := newUser.metaAvatarUrl.orElse (fun _ => p.avatar_url)
    updated_at := now }

/-- `public.sync_profile_from_auth_users()`: on INSERT of an auth user,
insert a profile with `ON CONFLICT (user_id) DO NOTHING`; on UPDATE,
update the matching profile row with `syncUpdateRow`. -/
def sync_profile_from_auth_users (op : TgOp) (newUser : AuthUserRow)
    (t : List ProfileRow) (now : Nat) : List ProfileRow :=
  match op with
  | .insert =>
    if (lookupProfile t newUser.id).isSome then t
    else t ++ [{ user_id := newUser.id
                 email := newUser.email
                 full_name := some (newUser.metaFullName.getD "")
                 avatar_url := some (newUser.metaAvatarUrl.getD "")
                 created_at := now
                 updated_at := now }]
  | .update =>
    t.map (fun p => if p.user_id == newUser.id then syncUpdateRow newUser p now else p)

/-! ## Audit recorder (database/auth-policies.sql) -/

/-- A row of `public.audit_logs`; the JSONB payloads are kept opaque. -/
structure AuditRow where
  user_id : Option String
  action : String
  table_name : Option String
  record_id : Option String
  old_values : Option String
  new_values : Option String
  created_at : Nat
deriving DecidableEq, Repr

/-- `INSERT INTO public.audit_logs` under the
`user_id REFERENCES auth.users(id)` foreign-key constraint: a non-NULL
actor id that no longer exists in `auth.users` raises; a NULL actor is
accepted. -/
def insertAuditRow (authUserIds : List String) (logs : List AuditRow)
    (r : AuditRow) : Except DbError (List AuditRow) :=
  match r.user_id with
  | none => .ok (logs ++ [r])
  | some u => if authUserIds.contains u then .ok (logs ++ [r]) else .error .fkViolation

/-- `public.log_audit_event(p_action, ...)`: a single INSERT of the event
row with `user_id := auth.uid()`; the body has no EXCEPTION handler, so
any error the INSERT raises propagates to the caller. -/
def log_audit_event (authUserIds : List String) (ctx : AuthCtx)
    (logs : List AuditRow) (p_action : String)
    (p_table_name p_record_id p_old_values p_new_values : Option String)
    (now : Nat) : Except DbError (List AuditRow) :=
  insertAuditRow authUserIds logs
    { user_id := ctx.uid
      action := p_action
      table_name := p_table_name
      record_id := p_record_id
      old_values := p_old_values
      new_values := p_new_values
      created_at := now }

/-! ## Server session resolver (server/server-auth.ts) -/

/-- The provider's user object as consumed by `getServerSession`:
`user.id`, `user.email` and the `full_name` / `avatar_url` keys of
`user.user_metadata`. -/
structure AuthUser where
  id : String
  email : String
  metaFullName : Option String
  metaAvatarUrl : Option String
deriving DecidableEq, Repr

/-- The outcome of one request's provider round trips, as observed by
`getServerSession`: whether the `supabase.auth.getUser()` round trip threw
(caught by the surrounding try/catch), the `user` and `error` fields it
returned otherwise, and the `access_token` of the session returned by the
secondary `supabase.auth.getSession()` fetch (`none` when that fetch
yields no session). -/
structure ServerEnv where
  getUserThrows : Bool
  getUserR : Option AuthUser
  getUserError : Bool
  getSessionAccessToken : Option String
deriving DecidableEq, Repr

/-- The `AuthSession` value of types/auth-types.ts, flattened:
`user.id`, `user.email`, the two metadata keys, and `access_token`. -/
structure AuthSession where
  userId : String
  email : String
  metaFullName : Option String
  metaAvatarUrl : Option String
  access_token : String
deriving DecidableEq, Repr

/-- `getServerSession()` from server-auth.ts: null when the provider call
threw, returned an error, or returned no user; otherwise the verified
user with `access_token := session?.access_token || ''` from the
secondary fetch. -/
def getServerSession (env : ServerEnv) : Option AuthSession :=
  if env.getUserThrows then none
  else
    match env.getUserR with
    | none => none
    | some u =>
      if env.getUserError then none
      else some
        { userId := u.id
          email := u.email
          metaFullName := u.metaFullName
          metaAvatarUrl := u.metaAvatarUrl
          access_token := env.getSessionAccessToken.getD "" }

/-- The `UserProfile` shape returned by `authenticateUser`. -/
structure UserProfile where
  user_id : String
  email : Option String
  full_name : Option String
  avatar_url : Option String
  created_at : Nat
  updated_at : Nat
deriving DecidableEq, Repr

/-- One request's environment for the application-level functions of
server-auth.ts: the session-resolver environment plus the outcome of the
`get_or_create_profile` RPC (`rpcError` is the client-level `error` field,
`rpcResult` the JSONB result, `none` when the client returned no
object). -/
structure AppEnv where
  server : ServerEnv
  rpcError : Bool
  rpcResult : Option ProcResult
deriving DecidableEq, Repr

/-- `authenticateUser()` from server-auth.ts: resolve the session, call
the `get_or_create_profile` RPC, reject client errors, unsuccessful
results and missing profiles, and return the profile spread with the
session's email and metadata fields overriding. -/
def authenticateUser (env : AppEnv) : Option UserProfile :=
  match getServerSession env.server with
  | none => none
  | some s =>
    if env.rpcError then none
    else
      match env.rpcResult with
      | none => none
      | some r =>
        if !r.success then none
        else
          match r.profile with
          | none => none
          | some p => some
            { user_id := p.user_id
              email := some s.email
              full_name := s.metaFullName
              avatar_url := s.metaAvatarUrl
              created_at := p.created_at
              updated_at := p.updated_at }

/-- The `authorized` field of `checkUserPermission(userId, permission?)`
from server-auth.ts: true exactly when `authenticateUser` yields a user
whose `user_id` equals the requested `userId`. The `permission` argument
is accepted but never read. -/
def checkUserPermission (env : AppEnv) (userId : String)
    (permission : Option String) : Bool :=
  match authenticateUser env with
  | none => false
  | some user => user.user_id == userId

/-- A coherent application environment representing an authenticated
subject (or `none` for an unauthenticated request): verification succeeds
exactly for a present subject, and the profile RPC succeeds, returning the
subject's own profile row. Used to compare the application-level decision
with the storage-level rules over the same subject. -/
def appEnvFor (subject : Option String) : AppEnv :=
  match subject with
  | none =>
    { server := { getUserThrows := false, getUserR := none, getUserError := false,
                  getSessionAccessToken := none }
      rpcError := false
      rpcResult := none }
  | some u =>
    { server := { getUserThrows := false
                  getUserR := some { id := u, email := "", metaFullName := none,
                                     metaAvatarUrl := none }
                  getUserError := false
                  getSessionAccessToken := none }
      rpcError := false
      rpcResult := some (mkFound
        { user_id := u, email := none, full_name := none, avatar_url := none,
          created_at := 0, updated_at := 0 }) }

/-! ## OAuth callback reconciler (client/auth-callback.tsx) -/

/-- The browser-visible URL as the reconciler manipulates it: the path and
the three transient query parameters (values as `searchParams.get` returns
them, i.e. already percent-decoded; `none` when absent). -/
structure UrlState where
  pathname : String
  code : Option String
  error : Option String
  error_description : Option String
deriving DecidableEq, Repr

/-- A provider session as the reconciler holds it (opaque beyond its
token). -/
structure Session where
  access_token : String
deriving DecidableEq, Repr

/-- The `{ data: { session }, error }` shape returned by
`exchangeCodeForSession` and `getSession` (`error` carries the error
message when present). -/
structure SessionFetch where
  session : Option Session
  error : Option String
deriving DecidableEq, Repr

/-- One landing's environment: the landing URL and the outcomes of the two
provider round trips the reconciler can make. -/
structure CallbackEnv where
  url : UrlState
  exchange : SessionFetch
  getSessionR : SessionFetch
deriving DecidableEq, Repr

/-- `decodeURIComponent` as applied to an already-decoded query-parameter
value: on percent-free strings the second decode is the identity, which is
all the reconciliation logic here depends on. -/
def decodeURIComponent (s : String) : String := s

/-- The message normalisation of the outer catch:
`error.message || "认证失败，请重试"` (a falsy, i.e. empty, message falls
back to the generic failure text). -/
def errMessage (m : String) : String :=
  if m = "" then "认证失败，请重试" else m

/-- `window.history.replaceState({}, title, currentUrl.pathname)`: the
visible URL keeps only the path, dropping the whole query string. -/
def stripQuery (u : UrlState) : UrlState :=
  { u with code := none, error := none, error_description := none }

/-- Terminal states of the reconciler. -/
inductive CallbackStatus
  | succeeded (s : Session)
  | failed (message : String)
deriving DecidableEq, Repr

/-- A terminal outcome together with the browser-visible URL at that
point. -/
structure CallbackResult where
  status : CallbackStatus
  url : UrlState
deriving DecidableEq, Repr

/-- `handleAuthCallback` from auth-callback.tsx. Branch order: an
`error_description` or `error` parameter throws immediately (caught by the
outer catch, URL untouched); else a `code` parameter triggers one code
exchange whose failure falls back to `getSession` (the fallback's error
field is ignored), with the URL query stripped in the `finally`; else a
direct `getSession` with its error rethrown. A null session at the end of
either non-error branch throws "未获取到认证会话" into the outer catch. -/
def handleAuthCallback (env : CallbackEnv) : CallbackResult :=
  let u := env.url
  match u.error_description.orElse (fun _ => u.error) with
  | some e => { status := .failed (errMessage (decodeURIComponent e)), url := u }
  | none =>
    if u.code.isSome then
      let session : Option Session :=
        match env.exchange.error with
        | some _ => env.getSessionR.session
        | none => env.exchange.session
      let u2 := stripQuery u
      match session with
      | some s => { status := .succeeded s, url := u2 }
      | none => { status := .failed (errMessage "未获取到认证会话"), url := u2 }
    else
      match env.getSessionR.error with
      | some e => { status := .failed (errMessage e), url := u }
      | none =>
        match env.getSessionR.session with
        | some s => { status := .succeeded s, url := u }
        | none => { status := .failed (errMessage "未获取到认证会话"), url := u }

/-! ## Lemmas about table lookup -/

theorem lookupProfile_append_single (t : List ProfileRow) (uid : String) (r : ProfileRow)
    (h0 : lookupProfile t uid = none) (hr : r.user_id = uid) :
    lookupProfile (t ++ [r]) uid = some r := by
  induction t with
  | nil => simp [lookupProfile, hr]
  | cons a t ih =>
    by_cases h : a.user_id = uid
    · exfalso
      rw [lookupProfile, List.find?_cons_of_pos _ (by simpa using h)] at h0
      exact Option.noConfusion h0
    · rw [lookupProfile, List.find?_cons_of_neg _ (by simpa using h)] at h0
      rw [lookupProfile, List.cons_append,
        List.find?_cons_of_neg _ (by simpa using h)]
      exact ih h0

theorem lookupProfile_map_replace (t : List ProfileRow) (uid : String) (q : ProfileRow)
    (hq : q.user_id = uid) :
    ∀ p, lookupProfile t uid = some p →
      lookupProfile (t.map fun r => if r.user_id == uid then q else r) uid = some q := by
  induction t with
  | nil =>
    intro p hp
    exact Option.noConfusion hp
  | cons a t ih =>
    intro p hp
    by_cases h : a.user_id = uid
    · rw [lookupProfile, List.map_cons, if_pos (by simpa using h),
        List.find?_cons_of_pos _ (by simpa using hq)]
    · rw [lookupProfile, List.find?_cons_of_neg _ (by simpa using h)] at hp
      rw [lookupProfile, List.map_cons, if_neg (by simpa using h),
        List.find?_cons_of_neg _ (by simpa using h)]
      exact ih p hp

theorem lookupProfile_map_rowfn (t : List ProfileRow) (uid : String)
    (f : ProfileRow → ProfileRow) (hf : ∀ r, (f r).user_id = r.user_id) :
    lookupProfile (t.map fun r => if r.user_id == uid then f r else r) uid
      = (lookupProfile t uid).map f := by
  induction t with
  | nil => rfl
  | cons a t ih =>
    by_cases h : a.user_id = uid
    · rw [lookupProfile, List.map_cons, if_pos (by simpa using h),
        List.find?_cons_of_pos _ (by simp [hf, h]),
        lookupProfile, List.find?_cons_of_pos _ (by simpa using h)]
      rfl
    · rw [lookupProfile, List.map_cons, if_neg (by simpa using h),
        List.find?_cons_of_neg _ (by simpa using h),
        lookupProfile, List.find?_cons_of_neg _ (by simpa using h)]
      exact ih

/-! ## Claim theorems -/

/-- C1: every permission check decision of `check_user_permission` follows
the claimed rule order with first match winning: an absent
(unauthenticated) subject is denied; a subject equal to the resource owner
is allowed; a subject carrying the elevated (service) role is allowed;
every other subject is denied — for any requested permission. -/
theorem claim_C1_check_rule_order (ctx : AuthCtx) (owner perm : String) :
    (ctx.uid = none → check_user_permission ctx owner perm = false) ∧
    (ctx.uid = some owner → check_user_permission ctx owner perm = true) ∧
    (∀ u, ctx.uid = some u → u ≠ owner → isServiceRole ctx = true →
      check_user_permission ctx owner perm = true) ∧
    (∀ u, ctx.uid = some u → u ≠ owner → isServiceRole ctx = false →
      check_user_permission ctx owner perm = false) := by
  refine ⟨fun h => ?_, fun h => ?_, fun u hu hne hsvc => ?_, fun u hu hne hsvc => ?_⟩
  · simp [check_user_permission, h]
  · simp [check_user_permission, h]
  · simp [check_user_permission, hu, hne, hsvc]
  · simp [check_user_permission, hu, hne, hsvc]

/-- Witness for C1: the four rules evaluated at concrete subjects — an
unauthenticated service-role caller is denied, an owner is allowed, an
elevated non-owner is allowed, a plain non-owner is denied. -/
theorem claim_C1_check_rule_order_witness :
    check_user_permission ⟨none, some "service_role"⟩ "o" "read" = false ∧
    check_user_permission ⟨some "a", none⟩ "a" "read" = true ∧
    check_user_permission ⟨some "a", some "service_role"⟩ "b" "read" = true ∧
    check_user_permission ⟨some "a", none⟩ "b" "read" = false :=
  ⟨(claim_C1_check_rule_order ⟨none, some "service_role"⟩ "o" "read").1 rfl,
   (claim_C1_check_rule_order ⟨some "a", none⟩ "a" "read").2.1 rfl,
   (claim_C1_check_rule_order ⟨some "a", some "service_role"⟩ "b" "read").2.2.1 "a" rfl
     (by decide) (by decide),
   (claim_C1_check_rule_order ⟨some "a", none⟩ "b" "read").2.2.2 "a" rfl
     (by decide) (by decide)⟩

/-- C10: the permission-check decision is independent of the requested
permission argument, both for the SQL function `check_user_permission`
(whose `required_permission` parameter is never read) and for the
application-level `checkUserPermission` (whose `permission` parameter is
never read). -/
theorem claim_C10_permission_argument_ignored :
    (∀ (ctx : AuthCtx) (owner p1 p2 : String),
      check_user_permission ctx owner p1 = check_user_permission ctx owner p2) ∧
    (∀ (env : AppEnv) (target : String) (p1 p2 : Option String),
      checkUserPermission env target p1 = checkUserPermission env target p2) :=
  ⟨fun _ _ _ _ => rfl, fun _ _ _ _ => rfl⟩

/-- C2 counterexample: the three renderings of the rule are not logically
identical. For subject `a` with the service role requesting owner `b`'s
resource, the SQL function allows while the application-level check (in a
coherent environment for subject `a`) denies; and for an unauthenticated
service-role caller, the row-level policies allow while the SQL function
denies. -/
theorem claim_C2_counterexample :
    check_user_permission ⟨some "a", some "service_role"⟩ "b" "read" = true ∧
    checkUserPermission (appEnvFor (some "a")) "b" (some "read") = false ∧
    profilesRlsAllows ⟨none, some "service_role"⟩ SqlCmd.select "b" = true ∧
    check_user_permission ⟨none, some "service_role"⟩ "b" "read" = false := by
  refine ⟨by decide, ?_, by decide, by decide⟩
  decide

/-- C2 amended: the three renderings agree only one-directionally and on
the non-elevated fragment — an application-level allow implies a SQL-level
allow, a SQL-level allow implies a row-level allow (for the select, insert
and update commands the profile policies cover), and for callers without
the service role (with the profile fetch succeeding) the application
check, the SQL function and the select policy all compute the same
decision; the decisions diverge for service-role callers. -/
theorem claim_C2_policy_refinement :
    (∀ (subject : Option String) (owner perm : String) (role : Option String),
      checkUserPermission (appEnvFor subject) owner (some perm) = true →
      check_user_permission ⟨subject, role⟩ owner perm = true) ∧
    (∀ (ctx : AuthCtx) (owner perm : String) (cmd : SqlCmd), cmd ≠ SqlCmd.delete →
      check_user_permission ctx owner perm = true →
      profilesRlsAllows ctx cmd owner = true) ∧
    (∀ (subject : Option String) (owner perm : String) (role : Option String),
      isServiceRole ⟨subject, role⟩ = false →
      checkUserPermission (appEnvFor subject) owner (some perm)
          = check_user_permission ⟨subject, role⟩ owner perm ∧
      check_user_permission ⟨subject, role⟩ owner perm
          = profilesRlsAllows ⟨subject, role⟩ SqlCmd.select owner) := by
  refine ⟨?_, ?_, ?_⟩
  · intro subject owner perm role h
    cases subject with
    | none => simp [checkUserPermission, authenticateUser, appEnvFor, getServerSession] at h
    | some u =>
      have hu : u = owner := by
        simpa [checkUserPermission, authenticateUser, appEnvFor, getServerSession,
          mkFound] using h
      simp [check_user_permission, hu]
  · intro ctx owner perm cmd hcmd h
    obtain ⟨uid0, role0⟩ := ctx
    cases uid0 with
    | none => simp [check_user_permission] at h
    | some u =>
      by_cases he : u = owner
      · subst he
        cases cmd with
        | delete => exact absurd rfl hcmd
        | select => simp [profilesRlsAllows]
        | insert => simp [profilesRlsAllows]
        | update => simp [profilesRlsAllows]
      · simp only [check_user_permission, he, if_false] at h
        have hs : isServiceRole ⟨some u, role0⟩ = true := by
          by_contra hs
          simp [hs] at h
        cases cmd <;> simp [profilesRlsAllows, hs]
  · intro subject owner perm role hrole
    cases subject with
    | none =>
      constructor
      · simp [checkUserPermission, authenticateUser, appEnvFor, getServerSession,
          check_user_permission]
      · simp [check_user_permission, profilesRlsAllows, hrole]
    | some u =>
      constructor
      · by_cases he : u = owner
        · simp [checkUserPermission, authenticateUser, appEnvFor, getServerSession,
            mkFound, check_user_permission, he]
        · simp [checkUserPermission, authenticateUser, appEnvFor, getServerSession,
            mkFound, check_user_permission, he, hrole]
      · by_cases he : u = owner
        · simp [check_user_permission, profilesRlsAllows, he]
        · simp [check_user_permission, profilesRlsAllows, he, hrole]

/-- Witness for C2 amended, at concrete subjects: an application-level
allow of owner `a` by subject `a` implies the SQL allow; the rule chain
holds for a select by a non-elevated caller; and subject `a` without the
service role gets identical app/SQL/select-policy decisions on owner
`b`. -/
theorem claim_C2_policy_refinement_witness :
    check_user_permission ⟨some "a", none⟩ "a" "read" = true ∧
    profilesRlsAllows ⟨some "a", none⟩ SqlCmd.select "a" = true ∧
    (checkUserPermission (appEnvFor (some "a")) "b" (some "read")
        = check_user_permission ⟨some "a", none⟩ "b" "read") :=
  ⟨claim_C2_policy_refinement.1 (some "a") "a" "read" none (by decide),
   claim_C2_policy_refinement.2.1 ⟨some "a", none⟩ "a" "read" SqlCmd.select
     (by decide) (by decide),
   (claim_C2_policy_refinement.2.2 (some "a") "b" "read" none (by decide)).1⟩

/-- C3 counterexample: on the error-parameter branch the reconciler
reaches the terminal state `Failed "User denied"` with the transient
`error` and `error_description` parameters still present in the
browser-visible URL — they are stripped only in the code-exchange
branch. -/
theorem claim_C3_counterexample :
    handleAuthCallback
      { url := { pathname := "/auth/callback", code := none,
                 error := some "access_denied",
                 error_description := some "User denied" }
        exchange := { session := none, error := none }
        getSessionR := { session := none, error := none } }
      = { status := .failed "User denied"
          url := { pathname := "/auth/callback", code := none,
                   error := some "access_denied",
                   error_description := some "User denied" } } := by
  decide

/-- C3 amended: the transient query parameters are stripped exactly in the
code-exchange branch — when the landing URL carries a code and no error
parameter, every terminal state has code, error and error_description
removed from the visible URL; in the error-parameter branch the reconciler
terminates in Failed with the URL (and its transient parameters) left
untouched; in the direct fallback branch the URL is also left untouched
(it carries none of the three parameters there). -/
theorem claim_C3_strip_on_exchange_branch (env : CallbackEnv) :
    (env.url.error_description = none → env.url.error = none →
      env.url.code.isSome = true →
      (handleAuthCallback env).url.code = none ∧
      (handleAuthCallback env).url.error = none ∧
      (handleAuthCallback env).url.error_description = none) ∧
    (∀ e, env.url.error_description.orElse (fun _ => env.url.error) = some e →
      (handleAuthCallback env).url = env.url ∧
      (handleAuthCallback env).status = .failed (errMessage e)) ∧
    (env.url.error_description = none → env.url.error = none →
      env.url.code = none → (handleAuthCallback env).url = env.url) := by
  obtain ⟨⟨path, code, error, desc⟩, ex, gs⟩ := env
  refine ⟨fun hdesc herr hcode => ?_, fun e he => ?_, fun hdesc herr hcode => ?_⟩
  · subst hdesc; subst herr
    obtain ⟨c, hc⟩ := Option.isSome_iff_exists.mp hcode
    subst hc
    simp only [handleAuthCallback, Option.orElse, stripQuery]
    cases ex.error with
    | none =>
      cases ex.session with
      | none => exact ⟨rfl, rfl, rfl⟩
      | some s => exact ⟨rfl, rfl, rfl⟩
    | some m =>
      cases gs.session with
      | none => exact ⟨rfl, rfl, rfl⟩
      | some s => exact ⟨rfl, rfl, rfl⟩
  · cases desc with
    | some d =>
      simp only [Option.orElse] at he
      cases he
      exact ⟨rfl, rfl⟩
    | none =>
      cases error with
      | some e2 =>
        simp only [Option.orElse] at he
        cases he
        exact ⟨rfl, rfl⟩
      | none => exact Option.noConfusion he
  · subst hdesc; subst herr; subst hcode
    simp only [handleAuthCallback, Option.orElse, Option.isSome]
    cases gs.error with
    | some e => rfl
    | none =>
      cases gs.session with
      | none => rfl
      | some s => rfl

/-- Witness for C3 amended: a code-carrying landing with a failed
exchange and no fallback session terminates with all transient parameters
stripped; an error-parameter landing terminates Failed with the URL
untouched; a bare landing leaves the URL untouched. -/
theorem claim_C3_strip_on_exchange_branch_witness :
    ((handleAuthCallback
      { url := { pathname := "/cb", code := some "abc123", error := none,
                 error_description := none }
        exchange := { session := none, error := some "used" }
        getSessionR := { session := none, error := none } }).url.code = none ∧
     (handleAuthCallback
      { url := { pathname := "/cb", code := some "abc123", error := none,
                 error_description := none }
        exchange := { session := none, error := some "used" }
        getSessionR := { session := none, error := none } }).url.error = none ∧
     (handleAuthCallback
      { url := { pathname := "/cb", code := some "abc123", error := none,
                 error_description := none }
        exchange := { session := none, error := some "used" }
        getSessionR := { session := none, error := none } }).url.error_description
       = none) ∧
    (handleAuthCallback
      { url := { pathname := "/cb", code := none, error := some "denied",
                 error_description := none }
        exchange := { session := none, error := none }
        getSessionR := { session := none, error := none } }).url
      = { pathname := "/cb", code := none, error := some "denied",
          error_description := none } ∧
    (handleAuthCallback
      { url := { pathname := "/cb", code := none, error := none,
                 error_description := none }
        exchange := { session := none, error := none }
        getSessionR := { session := some { access_token := "t" }, error := none } }).url
      = { pathname := "/cb", code := none, error := none,
          error_description := none } :=
  ⟨(claim_C3_strip_on_exchange_branch
      { url := { pathname := "/cb", code := some "abc123", error := none,
                 error_description := none }
        exchange := { session := none, error := some "used" }
        getSessionR := { session := none, error := none } }).1 rfl rfl rfl,
   ((claim_C3_strip_on_exchange_branch
      { url := { pathname := "/cb", code := none, error := some "denied",
                 error_description := none }
        exchange := { session := none, error := none }
        getSessionR := { session := none, error := none } }).2.1 "denied" rfl).1,
   (claim_C3_strip_on_exchange_branch
      { url := { pathname := "/cb", code := none, error := none,
                 error_description := none }
        exchange := { session := none, error := none }
        getSessionR := { session := some { access_token := "t" }, error := none } }).2.2
     rfl rfl rfl⟩

/-- C4: on a code-carrying landing (no error parameter) whose code
exchange fails, the reconciler falls back to a session lookup: a retrieved
session yields the terminal state Succeeded with that session, and an
absent session yields Failed with the "no session obtained" message
(source literal "未获取到认证会话"); in both cases the transient
parameters are stripped. -/
theorem claim_C4_exchange_failure_fallback (env : CallbackEnv)
    (hdesc : env.url.error_description = none) (herr : env.url.error = none)
    (hcode : env.url.code.isSome = true) (hex : env.exchange.error.isSome = true) :
    (∀ s, env.getSessionR.session = some s →
      handleAuthCallback env = { status := .succeeded s, url := stripQuery env.url }) ∧
    (env.getSessionR.session = none →
      handleAuthCallback env
        = { status := .failed "未获取到认证会话", url := stripQuery env.url }) := by
  obtain ⟨⟨path, code, error, desc⟩, ex, gs⟩ := env
  simp only at hdesc herr hcode hex
  subst hdesc; subst herr
  obtain ⟨c, hc⟩ := Option.isSome_iff_exists.mp hcode
  subst hc
  obtain ⟨m, hm⟩ := Option.isSome_iff_exists.mp hex
  constructor
  · intro s hs
    simp only at hs
    simp [handleAuthCallback, Option.orElse, hm, hs, stripQuery]
  · intro hs
    simp only at hs
    simp [handleAuthCallback, Option.orElse, hm, hs, stripQuery, errMessage]

/-- Witness for C4: with code `abc123`, a failing exchange and a
retrievable session the reconciler succeeds with that session; with no
retrievable session it fails with the "no session obtained" message. -/
theorem claim_C4_exchange_failure_fallback_witness :
    handleAuthCallback
      { url := { pathname := "/cb", code := some "abc123", error := none,
                 error_description := none }
        exchange := { session := none, error := some "code already used" }
        getSessionR := { session := some { access_token := "tok" }, error := none } }
      = { status := .succeeded { access_token := "tok" }
          url := { pathname := "/cb", code := none, error := none,
                   error_description := none } } ∧
    handleAuthCallback
      { url := { pathname := "/cb", code := some "abc123", error := none,
                 error_description := none }
        exchange := { session := none, error := some "code already used" }
        getSessionR := { session := none, error := none } }
      = { status := .failed "未获取到认证会话"
          url := { pathname := "/cb", code := none, error := none,
                   error_description := none } } :=
  ⟨(claim_C4_exchange_failure_fallback
      { url := { pathname := "/cb", code := some "abc123", error := none,
                 error_description := none }
        exchange := { session := none, error := some "code already used" }
        getSessionR := { session := some { access_token := "tok" }, error := none } }
      rfl rfl rfl rfl).1 { access_token := "tok" } rfl,
   (claim_C4_exchange_failure_fallback
      { url := { pathname := "/cb", code := some "abc123", error := none,
                 error_description := none }
        exchange := { session := none, error := some "code already used" }
        getSessionR := { session := none, error := none } }
      rfl rfl rfl rfl).2 rfl⟩

/-- C6: getServerSession returns null whenever identity verification
fails for any reason — the provider round trip threw (network failure),
returned an error (expired or malformed credential), or returned no user
(absent credential); and when verification succeeds the result is a
non-null session carrying the verified subject identity whatever the
secondary token fetch produced — in particular a failed secondary fetch
(no session) still yields the verified subject with an empty token. -/
theorem claim_C6_resolve_session (env : ServerEnv) :
    (env.getUserThrows = true → getServerSession env = none) ∧
    (env.getUserError = true → getServerSession env = none) ∧
    (env.getUserR = none → getServerSession env = none) ∧
    (∀ u, env.getUserThrows = false → env.getUserError = false →
      env.getUserR = some u →
      getServerSession env = some
        { userId := u.id, email := u.email, metaFullName := u.metaFullName,
          metaAvatarUrl := u.metaAvatarUrl,
          access_token := env.getSessionAccessToken.getD "" }) ∧
    (∀ u, env.getUserThrows = false → env.getUserError = false →
      env.getUserR = some u → env.getSessionAccessToken = none →
      ∃ s, getServerSession env = some s ∧ s.userId = u.id ∧
        s.access_token = "") := by
  obtain ⟨thr, ur, uerr, tok⟩ := env
  refine ⟨fun h => ?_, fun h => ?_, fun h => ?_,
    fun u h1 h2 h3 => ?_, fun u h1 h2 h3 h4 => ?_⟩
  · simp only at h
    subst h; rfl
  · simp only at h
    subst h
    cases thr with
    | true => rfl
    | false =>
      cases ur with
      | none => rfl
      | some u => rfl
  · simp only at h
    subst h
    cases thr with
    | true => rfl
    | false => rfl
  · simp only at h1 h2 h3
    subst h1; subst h2; subst h3
    rfl
  · simp only at h1 h2 h3 h4
    subst h1; subst h2; subst h3; subst h4
    exact ⟨_, rfl, rfl, rfl⟩

/-- Witness for C6: a throwing round trip, an error result and an absent
user each resolve to null; a verified user with a failed secondary fetch
still resolves to a session with that user id and an empty token. -/
theorem claim_C6_resolve_session_witness :
    getServerSession
      { getUserThrows := true, getUserR := none, getUserError := false,
        getSessionAccessToken := none } = none ∧
    getServerSession
      { getUserThrows := false,
        getUserR := some { id := "u", email := "e", metaFullName := none,
                           metaAvatarUrl := none },
        getUserError := true, getSessionAccessToken := some "t" } = none ∧
    getServerSession
      { getUserThrows := false, getUserR := none, getUserError := false,
        getSessionAccessToken := some "t" } = none ∧
    getServerSession
      { getUserThrows := false,
        getUserR := some { id := "u", email := "e", metaFullName := none,
                           metaAvatarUrl := none },
        getUserError := false, getSessionAccessToken := none }
      = some { userId := "u", email := "e", metaFullName := none,
               metaAvatarUrl := none, access_token := "" } :=
  ⟨(claim_C6_resolve_session
      { getUserThrows := true, getUserR := none, getUserError := false,
        getSessionAccessToken := none }).1 rfl,
   (claim_C6_resolve_session
      { getUserThrows := false,
        getUserR := some { id := "u", email := "e", metaFullName := none,
                           metaAvatarUrl := none },
        getUserError := true, getSessionAccessToken := some "t" }).2.1 rfl,
   (claim_C6_resolve_session
      { getUserThrows := false, getUserR := none, getUserError := false,
        getSessionAccessToken := some "t" }).2.2.1 rfl,
   (claim_C6_resolve_session
      { getUserThrows := false,
        getUserR := some { id := "u", email := "e", metaFullName := none,
                           metaAvatarUrl := none },
        getUserError := false, getSessionAccessToken := none }).2.2.2.1
     { id := "u", email := "e", metaFullName := none, metaAvatarUrl := none }
     rfl rfl rfl⟩

/-- C5 counterexample: a passive-sync notification whose display name is
the empty string does not preserve an existing non-empty display name —
the trigger's COALESCE preserves only on NULL (an absent metadata key),
so the carried empty string overwrites "Alice" with "". -/
theorem claim_C5_counterexample :
    (lookupProfile
        (sync_profile_from_auth_users .update
          { id := "u1", email := some "new@x", metaFullName := some "",
            metaAvatarUrl := none }
          [{ user_id := "u1", email := some "old@x", full_name := some "Alice",
             avatar_url := none, created_at := 1, updated_at := 1 }] 9)
        "u1").map ProfileRow.full_name = some (some "") ∧
    some (some "") ≠ some (some "Alice") :=
  ⟨rfl, by decide⟩

/-- C5 amended: on a passive-sync notification for an existing profile,
email is always overwritten with the upstream value (even to NULL);
display name and avatar are preserved exactly when the upstream
notification carries no value (an absent / NULL metadata key) and are
overwritten whenever it carries a value — including the empty string. -/
theorem claim_C5_sync_update_fields (t : List ProfileRow) (nu : AuthUserRow)
    (now : Nat) (p : ProfileRow) (hp : lookupProfile t nu.id = some p) :
    ∃ p2, lookupProfile (sync_profile_from_auth_users .update nu t now) nu.id
        = some p2 ∧
      p2.email = nu.email ∧
      (nu.metaFullName = none → p2.full_name = p.full_name) ∧
      (∀ v, nu.metaFullName = some v → p2.full_name = some v) ∧
      (nu.metaAvatarUrl = none → p2.avatar_url = p.avatar_url) ∧
      (∀ v, nu.metaAvatarUrl = some v → p2.avatar_url = some v) ∧
      p2.updated_at = now := by
  refine ⟨syncUpdateRow nu p now, ?_, rfl, ?_, ?_, ?_, ?_, rfl⟩
  · have h := lookupProfile_map_rowfn t nu.id (fun r => syncUpdateRow nu r now)
      (fun r => rfl)
    show lookupProfile (t.map fun r =>
      if r.user_id == nu.id then syncUpdateRow nu r now else r) nu.id = _
    rw [h, hp]
    rfl
  · intro h; simp [syncUpdateRow, h, Option.orElse]
  · intro v h; simp [syncUpdateRow, h, Option.orElse]
  · intro h; simp [syncUpdateRow, h, Option.orElse]
  · intro v h; simp [syncUpdateRow, h, Option.orElse]

/-- Witness for C5 amended: for an existing profile with display name
"Alice", a notification with an absent display-name key preserves "Alice"
while the email is overwritten. -/
theorem claim_C5_sync_update_fields_witness :
    (lookupProfile
        (sync_profile_from_auth_users .update
          { id := "u1", email := some "new@x", metaFullName := none,
            metaAvatarUrl := none }
          [{ user_id := "u1", email := some "old@x", full_name := some "Alice",
             avatar_url := none, created_at := 1, updated_at := 1 }] 9)
        "u1").map ProfileRow.full_name = some (some "Alice") ∧
    (lookupProfile
        (sync_profile_from_auth_users .update
          { id := "u1", email := some "new@x", metaFullName := none,
            metaAvatarUrl := none }
          [{ user_id := "u1", email := some "old@x", full_name := some "Alice",
             avatar_url := none, created_at := 1, updated_at := 1 }] 9)
        "u1").map ProfileRow.email = some (some "new@x") := by
  obtain ⟨p2, hl, he, hnone, _, _, _, _⟩ :=
    claim_C5_sync_update_fields
      [{ user_id := "u1", email := some "old@x", full_name := some "Alice",
         avatar_url := none, created_at := 1, updated_at := 1 }]
      { id := "u1", email := some "new@x", metaFullName := none,
        metaAvatarUrl := none }
      9
      { user_id := "u1", email := some "old@x", full_name := some "Alice",
        avatar_url := none, created_at := 1, updated_at := 1 }
      rfl
  rw [hl]
  exact ⟨by rw [Option.map_some', hnone rfl], by rw [Option.map_some', he]⟩

/-- C7 counterexample: `log_audit_event` is not fire-and-forget — with an
actor id no longer present in `auth.users`, the INSERT's foreign-key
violation propagates out of the handler-less function body and raises to
the caller. -/
theorem claim_C7_counterexample :
    log_audit_event [] ⟨some "ghost", none⟩ [] "profile.update"
        none none none none 3
      = .error .fkViolation :=
  rfl

/-- C7 amended: `log_audit_event` has no exception handler, so a failing
INSERT (a non-NULL actor id absent from `auth.users`) raises its error to
the caller; only when the INSERT succeeds (NULL actor, or an actor present
in `auth.users`) does the call return normally, appending the event. -/
theorem claim_C7_audit_error_propagates (authUserIds : List String)
    (ctx : AuthCtx) (logs : List AuditRow) (a : String)
    (tn rid ov nv : Option String) (now : Nat) :
    (∀ u, ctx.uid = some u → authUserIds.contains u = false →
      log_audit_event authUserIds ctx logs a tn rid ov nv now
        = .error .fkViolation) ∧
    (ctx.uid = none →
      log_audit_event authUserIds ctx logs a tn rid ov nv now
        = .ok (logs ++ [{ user_id := none, action := a, table_name := tn,
                          record_id := rid, old_values := ov, new_values := nv,
                          created_at := now }])) ∧
    (∀ u, ctx.uid = some u → authUserIds.contains u = true →
      log_audit_event authUserIds ctx logs a tn rid ov nv now
        = .ok (logs ++ [{ user_id := some u, action := a, table_name := tn,
                          record_id := rid, old_values := ov, new_values := nv,
                          created_at := now }])) := by
  refine ⟨fun u hu hc => ?_, fun h => ?_, fun u hu hc => ?_⟩
  · simp [log_audit_event, insertAuditRow, hu]
    simpa using hc
  · simp [log_audit_event, insertAuditRow, h]
  · simp [log_audit_event, insertAuditRow, hu]
    simpa using hc

/-- Witness for C7 amended: a ghost actor raises the foreign-key
violation to the caller; a NULL actor and a live actor append
normally. -/
theorem claim_C7_audit_error_propagates_witness :
    log_audit_event ["live"] ⟨some "ghost", none⟩ [] "act" none none none none 3
      = .error .fkViolation ∧
    log_audit_event ["live"] ⟨none, none⟩ [] "act" none none none none 3
      = .ok [{ user_id := none, action := "act", table_name := none,
               record_id := none, old_values := none, new_values := none,
               created_at := 3 }] ∧
    log_audit_event ["live"] ⟨some "live", none⟩ [] "act" none none none none 3
      = .ok [{ user_id := some "live", action := "act", table_name := none,
               record_id := none, old_values := none, new_values := none,
               created_at := 3 }] :=
  ⟨(claim_C7_audit_error_propagates ["live"] ⟨some "ghost", none⟩ [] "act"
      none none none none 3).1 "ghost" rfl (by decide),
   (claim_C7_audit_error_propagates ["live"] ⟨none, none⟩ [] "act"
      none none none none 3).2.1 rfl,
   (claim_C7_audit_error_propagates ["live"] ⟨some "live", none⟩ [] "act"
      none none none none 3).2.2 "live" rfl (by decide)⟩

/-- C8: `update_user_profile` merges — each provided field overwrites,
each omitted (or JSON-null) field keeps its previous value and is never
nulled out, `user_id` and `created_at` are untouched, `updated_at`
becomes the update time and strictly advances whenever the clock has
advanced past the row's last write; and the call returns NOT_FOUND,
leaving the table unchanged, when no row exists for the subject. -/
theorem claim_C8_update_merge (t : List ProfileRow) (uid : String)
    (d : UserUpdateData) (now : Nat) :
    (lookupProfile t uid = none →
      update_user_profile t uid d now = (mkNotFound, t)) ∧
    (∀ p, lookupProfile t uid = some p →
      (update_user_profile t uid d now).1 = mkUpdated (updateProfileRow d p now) ∧
      lookupProfile (update_user_profile t uid d now).2 uid
        = some (updateProfileRow d p now) ∧
      (∀ e, d.email = some e → (updateProfileRow d p now).email = some e) ∧
      (d.email = none → (updateProfileRow d p now).email = p.email) ∧
      (∀ v, d.full_name = some v → (updateProfileRow d p now).full_name = some v) ∧
      (d.full_name = none → (updateProfileRow d p now).full_name = p.full_name) ∧
      (∀ v, d.avatar_url = some v → (updateProfileRow d p now).avatar_url = some v) ∧
      (d.avatar_url = none → (updateProfileRow d p now).avatar_url = p.avatar_url) ∧
      (updateProfileRow d p now).user_id = p.user_id ∧
      (updateProfileRow d p now).created_at = p.created_at ∧
      (updateProfileRow d p now).updated_at = now ∧
      (p.updated_at < now → p.updated_at < (updateProfileRow d p now).updated_at)) := by
  constructor
  · intro h
    simp [update_user_profile, h]
  · intro p hp
    have hpid : p.user_id = uid := by
      have := List.find?_some hp
      simpa using this
    refine ⟨by simp [update_user_profile, hp], ?_,
      fun e h => by simp [updateProfileRow, handle_updated_at, h, Option.orElse],
      fun h => by simp [updateProfileRow, handle_updated_at, h, Option.orElse],
      fun v h => by simp [updateProfileRow, handle_updated_at, h, Option.orElse],
      fun h => by simp [updateProfileRow, handle_updated_at, h, Option.orElse],
      fun v h => by simp [updateProfileRow, handle_updated_at, h, Option.orElse],
      fun h => by simp [updateProfileRow, handle_updated_at, h, Option.orElse],
      rfl, rfl, rfl, fun h => h⟩
    have hq : (updateProfileRow d p now).user_id = uid := hpid
    simp only [update_user_profile, hp]
    exact lookupProfile_map_replace t uid _ hq p hp

/-- Witness for C8: updating profile `u1` with only an email overwrites
the email, preserves the display name, keeps `created_at`, sets
`updated_at` to the later clock and strictly advances it; updating a
missing subject returns NOT_FOUND with the table unchanged. -/
theorem claim_C8_update_merge_witness :
    (update_user_profile
        [{ user_id := "u1", email := some "old@x", full_name := some "Al",
           avatar_url := none, created_at := 1, updated_at := 1 }] "u1"
        { email := some "a@b.com", full_name := none, avatar_url := none } 7).1
      = mkUpdated { user_id := "u1", email := some "a@b.com",
                    full_name := some "Al", avatar_url := none,
                    created_at := 1, updated_at := 7 } ∧
    (1 : Nat) < 7 ∧
    update_user_profile [] "zz"
        { email := none, full_name := none, avatar_url := none } 7
      = (mkNotFound, []) := by
  have h := claim_C8_update_merge
    [{ user_id := "u1", email := some "old@x", full_name := some "Al",
       avatar_url := none, created_at := 1, updated_at := 1 }] "u1"
    { email := some "a@b.com", full_name := none, avatar_url := none } 7
  have h2 := claim_C8_update_merge [] "zz"
    { email := none, full_name := none, avatar_url := none } 7
  refine ⟨?_, by decide, h2.1 rfl⟩
  have hm := (h.2
    { user_id := "u1", email := some "old@x", full_name := some "Al",
      avatar_url := none, created_at := 1, updated_at := 1 } rfl).1
  rw [hm]
  rfl

/-- C9 counterexample: under two concurrent first-time
`get_or_create_profile` calls for the same new subject (both selects
before either insert), the losing caller does not observe the winner's
row as found — its handler-less INSERT (which has no ON CONFLICT clause)
raises a uniqueness violation. -/
theorem claim_C9_counterexample :
    (get_or_create_race
        [{ id := "u1", email := some "e@x", metaFullName := none,
           metaAvatarUrl := none }] [] "u1" 5 6).2.1
      = .error .uniqueViolation :=
  rfl

/-- C9 amended: the race keeps the table consistent — exactly one profile
row for the subject results, created by the winner — but the losing caller
receives a uniqueness-violation error instead of `found`; only a later,
serial call observes the winner's row as FOUND. -/
theorem claim_C9_race_loser_errors (users : List AuthUserRow)
    (t0 : List ProfileRow) (uid : String) (now1 now2 : Nat) (au : AuthUserRow)
    (hau : users.find? (fun u => u.id == uid) = some au)
    (h0 : lookupProfile t0 uid = none) :
    ∃ row : ProfileRow, row.user_id = uid ∧
      get_or_create_race users t0 uid now1 now2
        = (.ok (mkCreated row), .error .uniqueViolation, t0 ++ [row]) ∧
      (t0 ++ [row]).filter (fun r => r.user_id == uid) = [row] ∧
      get_or_create_profile users (t0 ++ [row]) uid now2
        = .ok (mkFound row, t0 ++ [row]) := by
  refine ⟨{ user_id := uid, email := some (au.email.getD ""),
            full_name := some (au.metaFullName.getD ""),
            avatar_url := some (au.metaAvatarUrl.getD ""),
            created_at := now1, updated_at := now1 }, rfl, ?_, ?_, ?_⟩
  · have hl1 : lookupProfile (t0 ++
        [{ user_id := uid, email := some (au.email.getD ""),
           full_name := some (au.metaFullName.getD ""),
           avatar_url := some (au.metaAvatarUrl.getD ""),
           created_at := now1, updated_at := now1 }]) uid
        = some { user_id := uid, email := some (au.email.getD ""),
                 full_name := some (au.metaFullName.getD ""),
                 avatar_url := some (au.metaAvatarUrl.getD ""),
                 created_at := now1, updated_at := now1 } :=
      lookupProfile_append_single t0 uid _ h0 rfl
    simp only [get_or_create_race, gocAfterSelect, gocInsertPhase,
      insertProfileRow, h0, hau, hl1, Option.isSome_none, Option.isSome_some,
      Bool.false_eq_true, if_false, if_true]
  · have ht0 : t0.filter (fun r => r.user_id == uid) = [] := by
      rw [List.filter_eq_nil_iff]
      intro a ha
      intro hcontra
      have := List.find?_eq_none.mp h0 a ha
      exact this hcontra
    simp [List.filter_append, ht0]
  · have hl1 : lookupProfile (t0 ++
        [{ user_id := uid, email := some (au.email.getD ""),
           full_name := some (au.metaFullName.getD ""),
           avatar_url := some (au.metaAvatarUrl.getD ""),
           created_at := now1, updated_at := now1 }]) uid
        = some { user_id := uid, email := some (au.email.getD ""),
                 full_name := some (au.metaFullName.getD ""),
                 avatar_url := some (au.metaAvatarUrl.getD ""),
                 created_at := now1, updated_at := now1 } :=
      lookupProfile_append_single t0 uid _ h0 rfl
    simp only [get_or_create_profile, gocAfterSelect, hl1]

/-- Witness for C9 amended at a concrete race: the winner creates, the
loser raises the uniqueness violation, one row results, and a serial
re-call sees FOUND. -/
theorem claim_C9_race_loser_errors_witness :
    (get_or_create_race
        [{ id := "u1", email := some "e@x", metaFullName := none,
           metaAvatarUrl := none }] [] "u1" 5 6).2.1
      = .error .uniqueViolation ∧
    (get_or_create_race
        [{ id := "u1", email := some "e@x", metaFullName := none,
           metaAvatarUrl := none }] [] "u1" 5 6).2.2.length = 1 := by
  obtain ⟨row, hrow, hrace, hfilter, hserial⟩ :=
    claim_C9_race_loser_errors
      [{ id := "u1", email := some "e@x", metaFullName := none,
         metaAvatarUrl := none }] [] "u1" 5 6
      { id := "u1", email := some "e@x", metaFullName := none,
        metaAvatarUrl := none } rfl rfl
  rw [hrace]
  exact ⟨rfl, rfl⟩

end AuthTemplate
